import Mathlib

/-
Shallow embedding of the Simple_Bank_System repository
(src/classes.py and src/main.py).

Modelling conventions:
- Python floats (balances, amounts, credit limits) are modelled as `Rat`;
  the claims under study only add, subtract and compare these values.
- Python ints (ages, monthly withdrawal counters) are modelled as `Int`.
- Python dicts (`self.customers`, `self.accounts`, `self.transactions`)
  are modelled as insertion-ordered association lists `List (String × α)`:
  assignment to an existing key replaces the value in place, assignment to
  a fresh key appends at the end, exactly as CPython dicts behave.
- Methods that mutate `self` become functions returning the new state;
  methods that can raise an uncaught exception (a `KeyError` on
  `self.customers[self.current_user]`) return `Option`.
- The interactive prompts of `perform_operations` are modelled by an
  `OpRequest` argument carrying the already-parsed choice, amount and
  recipient id, as §1 of the spec prescribes for the engine boundary.
-/

namespace SimpleBank

/-- Customer record, from `classes.py` lines 1-27. -/
structure Customer where
  customer_id : String
  name : String
  age : Int
  login : String
  password : String
  deriving DecidableEq, Repr

/-- The account hierarchy of `classes.py`: `SavingsAccount` carries
`monthly_withdrawals`, `CheckingAccount` carries `credit_limit`.  The
base class `Account` is never instantiated by the program, so the
embedding is the closed sum of the two concrete variants. -/
inductive Account where
  | savings (account_id : String) (customer_id : String) (balance : Rat)
      (monthly_withdrawals : Int)
  | checking (account_id : String) (customer_id : String) (balance : Rat)
      (credit_limit : Rat)
  deriving DecidableEq, Repr

namespace Account

/-- Accessor for the `account_id` attribute. -/
def account_id : Account → String
  | savings aid _ _ _ => aid
  | checking aid _ _ _ => aid

/-- Accessor for the `customer_id` attribute. -/
def customer_id : Account → String
  | savings _ cid _ _ => cid
  | checking _ cid _ _ => cid

/-- Accessor for the `balance` attribute. -/
def balance : Account → Rat
  | savings _ _ b _ => b
  | checking _ _ b _ => b

/-- Method `Account.deposit` (classes.py lines 60-71): unconditionally adds
`amount` to the balance and returns `True`.  Both variants inherit it
unchanged. -/
def deposit : Account → Rat → Account × Bool
  | savings aid cid b mw, amount => (savings aid cid (b + amount) mw, true)
  | checking aid cid b cl, amount => (checking aid cid (b + amount) cl, true)

/-- Methods `SavingsAccount.withdrawal` (classes.py lines 127-143) and
`CheckingAccount.withdrawal` (lines 194-209).  The savings variant is
guarded by `monthly_withdrawals > 0` and decrements the counter on
success; the checking variant is guarded by
`balance + credit_limit >= amount`. -/
def withdrawal : Account → Rat → Account × Bool
  | savings aid cid b mw, amount =>
      if 0 < mw then (savings aid cid (b - amount) (mw - 1), true)
      else (savings aid cid b mw, false)
  | checking aid cid b cl, amount =>
      if b + cl ≥ amount then (checking aid cid (b - amount) cl, true)
      else (checking aid cid b cl, false)

/-- Methods `SavingsAccount.transfer` (classes.py lines 145-163) and
`CheckingAccount.transfer` (lines 211-228): same guard as the matching
`withdrawal`; on success the source is debited and the recipient is
credited via `deposit`.  Result is `(source', recipient', flag)`. -/
def transfer : Account → Rat → Account → Account × Account × Bool
  | savings aid cid b mw, amount, recipient =>
      if 0 < mw then
        (savings aid cid (b - amount) (mw - 1), (recipient.deposit amount).1, true)
      else (savings aid cid b mw, recipient, false)
  | checking aid cid b cl, amount, recipient =>
      if b + cl ≥ amount then
        (checking aid cid (b - amount) cl, (recipient.deposit amount).1, true)
      else (checking aid cid b cl, recipient, false)

end Account

/-- Lookup in a Python-dict model: first (and, keys being unique, only)
entry with the given key. -/
def alookup {α : Type} : List (String × α) → String → Option α
  | [], _ => none
  | p :: ps, k => if p.1 = k then some p.2 else alookup ps k

/-- Replace the value at a key in place (the effect of mutating the object
stored at an existing key, or of `d[k] = v` when `k` is present: CPython
keeps the entry's position). -/
def amodify {α : Type} (l : List (String × α)) (k : String) (f : α → α) :
    List (String × α) :=
  l.map (fun p => if p.1 = k then (p.1, f p.2) else p)

/-- Python dict assignment `d[k] = v`: replace in place when the key
exists, otherwise append a new entry at the end. -/
def ainsert {α : Type} (l : List (String × α)) (k : String) (v : α) :
    List (String × α) :=
  if (alookup l k).isSome then amodify l k (fun _ => v) else l ++ [(k, v)]

/-- Python `del d[k]`, total because `delete_account` guards its deletes
with membership tests. -/
def aerase {α : Type} : List (String × α) → String → List (String × α)
  | [], _ => []
  | p :: ps, k => if p.1 = k then aerase ps k else p :: aerase ps k

/-- Transaction record: the 4-tuples appended for deposits and withdrawals
and the 5-tuples (carrying the recipient id) appended for transfers in
`perform_operations`. -/
inductive Transaction where
  | plain (transaction_id : String) (amount : Rat) (transaction_type : String)
      (status : String)
  | xfer (transaction_id : String) (recipient_account_id : String) (amount : Rat)
      (transaction_type : String) (status : String)
  deriving DecidableEq, Repr

/-- Accessor for the status field of a transaction tuple. -/
def Transaction.status : Transaction → String
  | .plain _ _ _ st => st
  | .xfer _ _ _ _ st => st

/-- Accessor for the type field of a transaction tuple. -/
def Transaction.transaction_type : Transaction → String
  | .plain _ _ ty _ => ty
  | .xfer _ _ _ ty _ => ty

/-- The `BankSystem` state (main.py `__init__`, lines 18-28). -/
structure BankSystem where
  customers : List (String × Customer)
  accounts : List (String × Account)
  transactions : List (String × List Transaction)
  current_user : Option String
  admin_password : String
  deriving DecidableEq, Repr

/-- A fresh `BankSystem()` as built by `__init__`. -/
def BankSystem.init : BankSystem :=
  { customers := [], accounts := [], transactions := [],
    current_user := none, admin_password := "admin" }

/-- Python `self.transactions.setdefault(account_id, []).append(rec)`:
append to the existing list in place, or add a new singleton entry at the
end of the dict. -/
def appendTransaction (l : List (String × List Transaction)) (k : String)
    (t : Transaction) : List (String × List Transaction) :=
  if (alookup l k).isSome then amodify l k (fun ts => ts ++ [t])
  else l ++ [(k, [t])]

/-- The already-parsed interactive input of `perform_operations`: menu
choice 1, 2 or 3 together with the prompted amount and, for transfers, the
prompted recipient account id. -/
inductive OpRequest where
  | deposit (amount : Rat)
  | withdrawal (amount : Rat)
  | transfer (recipient_account_id : String) (amount : Rat)
  deriving DecidableEq, Repr

/-- The observable outcome of one `perform_operations` call, mirroring the
notice it prints. -/
inductive OpOutcome where
  | notLoggedIn
  | accountNotFound
  | notAuthorized
  | recipientNotFound
  | done (success : Bool)
  deriving DecidableEq, Repr

/-- The ownership check shared by the account-scoped methods (main.py
line 271 and its clones): `current_user != "admin" and account.customer_id
!= self.customers[self.current_user].customer_id`.  Returns `none` when
`self.customers[self.current_user]` would raise `KeyError`. -/
def BankSystem.authorized (bs : BankSystem) (u : String) (account : Account) :
    Option Bool :=
  if u = "admin" then some true
  else match alookup bs.customers u with
    | none => none
    | some c => some (decide (account.customer_id = c.customer_id))

/-- The variant-specific guard shared, textually, by the entity
`withdrawal` and `transfer` methods: `monthly_withdrawals > 0` for
savings, `balance + credit_limit >= amount` for checking. -/
def Account.transferGuard : Account → Rat → Bool
  | .savings _ _ _ mw, _ => decide (0 < mw)
  | .checking _ _ b cl, amount => decide (b + cl ≥ amount)

/-- In-place `self.balance -= amount` on an account object. -/
def Account.subBalance : Account → Rat → Account
  | .savings aid cid b mw, x => .savings aid cid (b - x) mw
  | .checking aid cid b cl, x => .checking aid cid (b - x) cl

/-- In-place `self.monthly_withdrawals -= 1`.  Only ever applied by the
dispatcher to the savings account that passed the transfer guard; on a
checking account (which has no such attribute) it is the identity. -/
def Account.decMonthly : Account → Account
  | .savings aid cid b mw => .savings aid cid b (mw - 1)
  | .checking aid cid b cl => .checking aid cid b cl

/-- Method `BankSystem.perform_operations` (main.py lines 252-354), with
the interactive prompts abstracted into `req`.  Returns `none` on the
uncaught `KeyError` path (a logged-in user missing from `customers`);
otherwise the new state and the printed outcome.  The three mutation
statements of the entity `transfer` methods (`self.balance -= amount`,
`recipient_account.deposit(amount)`, and for savings
`self.monthly_withdrawals -= 1`) are staged on the accounts map one at a
time, so a transfer whose recipient id names the source account behaves
exactly as the aliased Python objects do. -/
def BankSystem.perform_operations (bs : BankSystem) (account_id : String)
    (req : OpRequest) : Option (BankSystem × OpOutcome) :=
  match bs.current_user with
  | none => some (bs, .notLoggedIn)
  | some u =>
    match alookup bs.accounts account_id with
    | none => some (bs, .accountNotFound)
    | some account =>
      match bs.authorized u account with
      | none => none
      | some false => some (bs, .notAuthorized)
      | some true =>
        let transaction_id :=
          toString (((alookup bs.transactions account_id).getD []).length + 1)
        match req with
        | .deposit amount =>
            let ok := (account.deposit amount).2
            let status := if ok then "COMPLETE" else "ABORTED"
            some ({ bs with
                      accounts := amodify bs.accounts account_id
                        (fun _ => (account.deposit amount).1),
                      transactions := appendTransaction bs.transactions account_id
                        (.plain transaction_id amount "deposit" status) },
                  .done ok)
        | .withdrawal amount =>
            let ok := (account.withdrawal amount).2
            let status := if ok then "COMPLETE" else "ABORTED"
            some ({ bs with
                      accounts := amodify bs.accounts account_id
                        (fun _ => (account.withdrawal amount).1),
                      transactions := appendTransaction bs.transactions account_id
                        (.plain transaction_id amount "withdrawal" status) },
                  .done ok)
        | .transfer recipient_account_id amount =>
            match alookup bs.accounts recipient_account_id with
            | none => some (bs, .recipientNotFound)
            | some _ =>
              if account.transferGuard amount then
                let m1 := amodify bs.accounts account_id
                  (fun a => a.subBalance amount)
                let m2 := amodify m1 recipient_account_id
                  (fun a => (a.deposit amount).1)
                let m3 :=
                  match account with
                  | .savings _ _ _ _ => amodify m2 account_id Account.decMonthly
                  | .checking _ _ _ _ => m2
                some ({ bs with
                          accounts := m3,
                          transactions := appendTransaction bs.transactions account_id
                            (.xfer transaction_id recipient_account_id amount
                              "transfer" "COMPLETE") },
                      .done true)
              else
                some ({ bs with
                          transactions := appendTransaction bs.transactions account_id
                            (.xfer transaction_id recipient_account_id amount
                              "transfer" "ABORTED") },
                      .done false)

/-- The observable result of `view_transactions` (main.py lines 215-250);
the method only reads state.  `none` models the `KeyError` path of the
ownership check. -/
inductive ViewOutcome where
  | notLoggedIn
  | accountNotFound
  | notAuthorized
  | noTransactions
  | shown (ts : List Transaction)
  deriving DecidableEq, Repr

/-- Method `BankSystem.view_transactions` (main.py lines 215-250). -/
def BankSystem.view_transactions (bs : BankSystem) (account_id : String) :
    Option ViewOutcome :=
  match bs.current_user with
  | none => some .notLoggedIn
  | some u =>
    match alookup bs.accounts account_id with
    | none => some .accountNotFound
    | some account =>
      match bs.authorized u account with
      | none => none
      | some false => some .notAuthorized
      | some true =>
        match alookup bs.transactions account_id with
        | none => some .noTransactions
        | some ts => some (.shown ts)

/-- The structured balance view printed by `Account.show_balance`
(classes.py lines 86-96): account id, customer id, balance, and the
derived "Overdrawn"/"Active" label. -/
structure BalanceView where
  account_id : String
  customer_id : String
  balance : Rat
  overdrawn : Bool
  deriving DecidableEq, Repr

/-- Method `Account.show_balance` as a pure query. -/
def Account.show_balance (a : Account) : BalanceView :=
  { account_id := a.account_id, customer_id := a.customer_id,
    balance := a.balance, overdrawn := decide (a.balance < 0) }

/-- The observable result of `check_balance` (main.py lines 356-379). -/
inductive BalanceOutcome where
  | notLoggedIn
  | accountNotFound
  | notAuthorized
  | shown (v : BalanceView)
  deriving DecidableEq, Repr

/-- Method `BankSystem.check_balance` (main.py lines 356-379); the method
only reads state. -/
def BankSystem.check_balance (bs : BankSystem) (account_id : String) :
    Option BalanceOutcome :=
  match bs.current_user with
  | none => some .notLoggedIn
  | some u =>
    match alookup bs.accounts account_id with
    | none => some .accountNotFound
    | some account =>
      match bs.authorized u account with
      | none => none
      | some false => some .notAuthorized
      | some true => some (.shown account.show_balance)

/-- Method `BankSystem.delete_account` (main.py lines 382-402): it
performs no session check; it removes the account and, when present, its
transaction list.  The flag reports whether a deletion happened. -/
def BankSystem.delete_account (bs : BankSystem) (account_id : String) :
    BankSystem × Bool :=
  if (alookup bs.accounts account_id).isSome then
    ({ bs with accounts := aerase bs.accounts account_id,
               transactions := aerase bs.transactions account_id }, true)
  else (bs, false)

/-- The observable outcome of `create_account` (main.py lines 172-213). -/
inductive CreateOutcome where
  | customerNotFound
  | ageRestriction
  | invalidType
  | created (account_id : String)
  deriving DecidableEq, Repr

/-- The customer scan of `create_account` (main.py lines 183-187): iterate
the customers dict in order, remembering the last entry whose
`customer_id` matches. -/
def findCustomerById (customers : List (String × Customer)) (cid : String) :
    Option Customer :=
  customers.foldl (fun acc p => if p.2.customer_id = cid then some p.2 else acc)
    none

/-- Method `BankSystem.create_account` (main.py lines 172-213): customer
scan, fresh account id from the current dict size, age gate (Savings needs
age >= 14, Checking needs age >= 18), then the variant constructors with
their default balance 0, monthly_withdrawals 1 and credit_limit 0. -/
def BankSystem.create_account (bs : BankSystem) (customer_id : String)
    (account_type : String) : BankSystem × CreateOutcome :=
  match findCustomerById bs.customers customer_id with
  | none => (bs, .customerNotFound)
  | some found_customer =>
    let account_id := toString (bs.accounts.length + 1)
    if (account_type = "Savings" ∧ found_customer.age < 14)
        ∨ (account_type = "Checking" ∧ found_customer.age < 18) then
      (bs, .ageRestriction)
    else if account_type = "Savings" then
      ({ bs with
           accounts := ainsert bs.accounts account_id
                         (.savings account_id customer_id 0 1) },
       .created account_id)
    else if account_type = "Checking" then
      ({ bs with
           accounts := ainsert bs.accounts account_id
                         (.checking account_id customer_id 0 0) },
       .created account_id)
    else (bs, .invalidType)

/-- A sequence of dispatched operations, each naming a target account and
a request, as issued through the menu loop. -/
def BankSystem.runOps (bs : BankSystem) :
    List (String × OpRequest) → Option BankSystem
  | [] => some bs
  | (aid, req) :: rest =>
    match bs.perform_operations aid req with
    | none => none
    | some (bs', _) => bs'.runOps rest

/-- No transaction record anywhere in the ledger is a deposit tagged
ABORTED. -/
def noAbortedDeposit (bs : BankSystem) : Prop :=
  ∀ p ∈ bs.transactions, ∀ t ∈ p.2,
    ¬ (t.transaction_type = "deposit" ∧ t.status = "ABORTED")

/-- A field of one comma-delimited record.  `str` is text written from a
Python string value and read back unchanged; `num` and `int` are the
decimal texts written by an f-string from a float or an int, kept at value
level so that the `float()`/`int()` conversions applied on load are exact
(Python's float repr round-trips).  Numeric parsing of arbitrary text is
outside the fragment this embedding tracks. -/
inductive FileField where
  | str (s : String)
  | num (q : Rat)
  | int (n : Int)
  deriving DecidableEq, Repr

/-- Python `float(field)`: exact on text written from a float or an int;
`none` (an uncaught `ValueError` in the fragment tracked here) on other
text. -/
def pyFloat : FileField → Option Rat
  | .str _ => none
  | .num q => some q
  | .int n => some (n : Rat)

/-- Python `int(field)`: exact on text written from an int; `int()`
rejects float-shaped text such as "3.0". -/
def pyInt : FileField → Option Int
  | .str _ => none
  | .num _ => none
  | .int n => some n

/-- One line of `data/customers.txt` as read by `load_data` (main.py lines
85-88): exactly five fields (any other count makes the tuple unpacking
raise), keyed by the login field, with `int(age)`. -/
def loadCustomerLine : List FileField → Option (String × Customer)
  | [.str customer_id, .str name, age, .str login, .str password] =>
      match pyInt age with
      | none => none
      | some a => some (login, ⟨customer_id, name, a, login, password⟩)
  | _ => none

/-- One line of `data/accounts.txt` as read by `load_data` (main.py lines
91-99).  `none` models a failed numeric conversion; `some none` a silently
skipped line (a field count other than 4 and 5 matches neither `if`);
`some (some entry)` a loaded account keyed by its first field.  The third
field — the type label — is bound but never inspected: only the field
count selects the variant. -/
def loadAccountLine : List FileField → Option (Option (String × Account))
  | [.str account_id, .str customer_id, _, balance] =>
      match pyFloat balance with
      | none => none
      | some b => some (some (account_id, .checking account_id customer_id b 0))
  | [.str account_id, .str customer_id, _, balance, monthly_withdrawals] =>
      match pyFloat balance, pyInt monthly_withdrawals with
      | some b, some mw =>
          some (some (account_id, .savings account_id customer_id b mw))
      | _, _ => none
  | l => if l.length = 4 ∨ l.length = 5 then none else some none

/-- One line of `data/accountsTransactions.txt` as read by `load_data`
(main.py lines 102-110): five fields rebuild a plain tuple, six a transfer
tuple, any other count is silently skipped. -/
def loadTransactionLine : List FileField → Option (Option (String × Transaction))
  | [.str account_id, .str transaction_id, amount, .str ty, .str st] =>
      match pyFloat amount with
      | none => none
      | some amt =>
          some (some (account_id, .plain transaction_id amt ty st))
  | [.str account_id, .str transaction_id, .str recipient_id, amount,
     .str ty, .str st] =>
      match pyFloat amount with
      | none => none
      | some amt =>
          some (some (account_id, .xfer transaction_id recipient_id amt ty st))
  | l => if l.length = 5 ∨ l.length = 6 then none else some none

/-- The customers loop of `load_data`: one dict assignment per line. -/
def loadCustomers (cs : List (String × Customer)) :
    List (List FileField) → Option (List (String × Customer))
  | [] => some cs
  | line :: rest =>
    match loadCustomerLine line with
    | none => none
    | some (k, c) => loadCustomers (ainsert cs k c) rest

/-- The accounts loop of `load_data`. -/
def loadAccounts (accs : List (String × Account)) :
    List (List FileField) → Option (List (String × Account))
  | [] => some accs
  | line :: rest =>
    match loadAccountLine line with
    | none => none
    | some none => loadAccounts accs rest
    | some (some (k, a)) => loadAccounts (ainsert accs k a) rest

/-- The transactions loop of `load_data`: one `setdefault`-append per
line. -/
def loadTransactions (ts : List (String × List Transaction)) :
    List (List FileField) → Option (List (String × List Transaction))
  | [] => some ts
  | line :: rest =>
    match loadTransactionLine line with
    | none => none
    | some none => loadTransactions ts rest
    | some (some (k, t)) => loadTransactions (appendTransaction ts k t) rest

/-- The three files written by `save_data` (main.py lines 113-142). -/
structure SavedFiles where
  customersFile : List (List FileField)
  accountsFile : List (List FileField)
  transactionsFile : List (List FileField)
  deriving DecidableEq, Repr

/-- One customers line written by `save_data` (main.py line 123). -/
def saveCustomerLine (c : Customer) : List FileField :=
  [.str c.customer_id, .str c.name, .int c.age, .str c.login, .str c.password]

/-- One accounts line written by `save_data` (main.py lines 128-131): five
fields for a savings account, four for a checking account — the credit
limit is never written. -/
def saveAccountLine : Account → List FileField
  | .savings aid cid b mw =>
      [.str aid, .str cid, .str "Savings", .num b, .int mw]
  | .checking aid cid b _ =>
      [.str aid, .str cid, .str "Checking", .num b]

/-- One transactions line written by `save_data` (main.py lines 134-142),
prefixed with the owning account id. -/
def saveTransactionLine (account_id : String) : Transaction → List FileField
  | .plain tid amt ty st =>
      [.str account_id, .str tid, .num amt, .str ty, .str st]
  | .xfer tid rid amt ty st =>
      [.str account_id, .str tid, .str rid, .num amt, .str ty, .str st]

/-- Method `BankSystem.save_data` (main.py lines 113-142): full rewrite of
the three files from the in-memory dicts, in dict order. -/
def BankSystem.save_data (bs : BankSystem) : SavedFiles :=
  { customersFile := bs.customers.map (fun p => saveCustomerLine p.2),
    accountsFile := bs.accounts.map (fun p => saveAccountLine p.2),
    transactionsFile :=
      (bs.transactions.map (fun p => p.2.map (saveTransactionLine p.1))).flatten }

/-- Method `BankSystem.load_data` (main.py lines 77-110): read the three
files, in order, into the dicts of `bs`; `none` models an uncaught
exception. -/
def BankSystem.load_data (bs : BankSystem) (files : SavedFiles) :
    Option BankSystem :=
  match loadCustomers bs.customers files.customersFile with
  | none => none
  | some cs =>
    match loadAccounts bs.accounts files.accountsFile with
    | none => none
    | some accs =>
      match loadTransactions bs.transactions files.transactionsFile with
      | none => none
      | some ts =>
          some { bs with customers := cs, accounts := accs, transactions := ts }

/-- Folding a block of `setdefault`-appends for one account, as the
transactions loop of `load_data` does for consecutive lines sharing an
account id. -/
def appendMany (l : List (String × List Transaction)) (k : String)
    (ts : List Transaction) : List (String × List Transaction) :=
  ts.foldl (fun a t => appendTransaction a k t) l

/-- Whether an account survives the accounts-file codec unchanged: a
savings account always does; a checking account only when its credit
limit is zero, because the 4-field checking line never carries the credit
limit and reloading rebuilds it with the constructor default 0. -/
def Account.persistable : Account → Bool
  | .savings _ _ _ _ => true
  | .checking _ _ _ cl => decide (cl = 0)

/-- A concrete savings account used to evaluate the development on closed
inputs. -/
def cxAccount : Account := .savings "1" "c1" 100 1

/-- A concrete store with an admin session and one savings account. -/
def cxBank : BankSystem :=
  { customers := [], accounts := [("1", cxAccount)], transactions := [],
    current_user := some "admin", admin_password := "admin" }

/-- A concrete store with no session, one account and one logged
transaction. -/
def cxBankLoggedOut : BankSystem :=
  { customers := [], accounts := [("1", cxAccount)],
    transactions := [("1", [.plain "1" 5 "deposit" "COMPLETE"])],
    current_user := none, admin_password := "admin" }

/-- A concrete customer of exactly the Savings boundary age. -/
def cxCustomer14 : Customer := ⟨"c14", "ann", 14, "ann", "h1"⟩

/-- A concrete customer of exactly the Checking boundary age. -/
def cxCustomer18 : Customer := ⟨"c18", "bob", 18, "bob", "h2"⟩

/-- A concrete customer below both boundary ages. -/
def cxCustomer13 : Customer := ⟨"c13", "kid", 13, "kid", "h3"⟩

/-- A concrete store holding the three customers above, admin session. -/
def cxBankAges : BankSystem :=
  { customers := [("ann", cxCustomer14), ("bob", cxCustomer18),
                  ("kid", cxCustomer13)],
    accounts := [], transactions := [],
    current_user := some "admin", admin_password := "admin" }

/-- A concrete store with an admin session and a savings account whose
withdrawal quota is exhausted. -/
def cxBankNoQuota : BankSystem :=
  { customers := [], accounts := [("1", .savings "1" "c1" 100 0)],
    transactions := [], current_user := some "admin",
    admin_password := "admin" }

/-- A concrete store holding a checking account with a nonzero credit
limit. -/
def cxBankCredit : BankSystem :=
  { customers := [], accounts := [("1", .checking "1" "c1" 0 5)],
    transactions := [], current_user := none, admin_password := "admin" }

/-- A concrete store populating all three dicts, with both account
variants and both transaction shapes. -/
def cxBankFull : BankSystem :=
  { customers := [("ann", cxCustomer14)],
    accounts := [("1", .savings "1" "c14" 100 1),
                 ("2", .checking "2" "c14" 50 0)],
    transactions := [("1", [.plain "1" 5 "deposit" "COMPLETE",
                            .xfer "2" "2" 7 "transfer" "ABORTED"]),
                     ("2", [.plain "1" 9 "withdrawal" "ABORTED"])],
    current_user := none, admin_password := "admin" }

end SimpleBank

namespace SimpleBank

/-- Helper: depositing adds the amount to the balance of either variant. -/
theorem balance_deposit (a : Account) (x : Rat) :
    (a.deposit x).1.balance = a.balance + x := by
  cases a <;> simp [Account.deposit, Account.balance]

/-- Helper: `deposit` always reports success. -/
theorem snd_deposit (a : Account) (x : Rat) : (a.deposit x).2 = true := by
  cases a <;> simp [Account.deposit]

/-- C1: for every SavingsAccount state and amount, `withdrawal` succeeds
iff `monthly_withdrawals > 0`; on success the balance drops by exactly
`amount` and the counter by exactly 1; on failure both are unchanged; and
the same guard and decrement govern an outgoing `transfer`. -/
theorem savings_withdrawal_and_transfer_rules
    (aid cid : String) (b : Rat) (mw : Int) (amount : Rat) (r : Account) :
    (((Account.savings aid cid b mw).withdrawal amount).2 = true ↔ 0 < mw)
    ∧ (0 < mw →
        (Account.savings aid cid b mw).withdrawal amount
          = (Account.savings aid cid (b - amount) (mw - 1), true))
    ∧ (¬ 0 < mw →
        (Account.savings aid cid b mw).withdrawal amount
          = (Account.savings aid cid b mw, false))
    ∧ (((Account.savings aid cid b mw).transfer amount r).2.2 = true ↔ 0 < mw)
    ∧ (0 < mw →
        (Account.savings aid cid b mw).transfer amount r
          = (Account.savings aid cid (b - amount) (mw - 1),
             (r.deposit amount).1, true))
    ∧ (¬ 0 < mw →
        (Account.savings aid cid b mw).transfer amount r
          = (Account.savings aid cid b mw, r, false)) := by
  unfold Account.withdrawal Account.transfer
  by_cases h : 0 < mw <;> simp [h]

/-- Witness for C1 at concrete inputs on both sides of the guard. -/
theorem savings_withdrawal_and_transfer_rules_witness :
    (((Account.savings "1" "c1" 10 2).withdrawal 4).2 = true)
    ∧ (((Account.savings "1" "c1" 10 0).withdrawal 4)
        = (Account.savings "1" "c1" 10 0, false)) :=
  ⟨(savings_withdrawal_and_transfer_rules "1" "c1" 10 2 4
      (Account.checking "9" "c9" 0 0)).1.mpr (by decide),
   (savings_withdrawal_and_transfer_rules "1" "c1" 10 0 4
      (Account.checking "9" "c9" 0 0)).2.2.1 (by decide)⟩

/-- C2: for every CheckingAccount state and amount, `withdrawal` and
`transfer` succeed iff `balance + credit_limit >= amount`; on success the
new balance is `balance - amount`; the credit limit is unchanged by every
withdrawal and transfer, successful or not. -/
theorem checking_withdrawal_and_transfer_rules
    (aid cid : String) (b cl amount : Rat) (r : Account) :
    (((Account.checking aid cid b cl).withdrawal amount).2 = true ↔ b + cl ≥ amount)
    ∧ (b + cl ≥ amount →
        (Account.checking aid cid b cl).withdrawal amount
          = (Account.checking aid cid (b - amount) cl, true))
    ∧ (¬ b + cl ≥ amount →
        (Account.checking aid cid b cl).withdrawal amount
          = (Account.checking aid cid b cl, false))
    ∧ (((Account.checking aid cid b cl).transfer amount r).2.2 = true ↔ b + cl ≥ amount)
    ∧ (b + cl ≥ amount →
        (Account.checking aid cid b cl).transfer amount r
          = (Account.checking aid cid (b - amount) cl,
             (r.deposit amount).1, true))
    ∧ (¬ b + cl ≥ amount →
        (Account.checking aid cid b cl).transfer amount r
          = (Account.checking aid cid b cl, r, false)) := by
  unfold Account.withdrawal Account.transfer
  by_cases h : b + cl ≥ amount <;> simp [h]

/-- Witness for C2 at concrete inputs on both sides of the guard,
including an overdraft into the credit limit. -/
theorem checking_withdrawal_and_transfer_rules_witness :
    (((Account.checking "1" "c1" 100 20).withdrawal 120).2 = true)
    ∧ (((Account.checking "1" "c1" 0 0).withdrawal 50)
        = (Account.checking "1" "c1" 0 0, false)) :=
  ⟨(checking_withdrawal_and_transfer_rules "1" "c1" 100 20 120
      (Account.savings "9" "c9" 0 1)).1.mpr (by norm_num),
   (checking_withdrawal_and_transfer_rules "1" "c1" 0 0 50
      (Account.savings "9" "c9" 0 1)).2.2.1 (by norm_num)⟩

/-- C3: for every account of either variant and every amount, including
negative amounts, `deposit` returns `True` and the new balance is the old
balance plus the amount; there is no guard on the amount. -/
theorem deposit_always_adds (a : Account) (amount : Rat) :
    (a.deposit amount).2 = true
    ∧ (a.deposit amount).1.balance = a.balance + amount := by
  cases a <;> simp [Account.deposit, Account.balance]

/-- C4: for every source, recipient and amount, a successful `transfer`
debits the source by exactly `amount` and credits the recipient by exactly
`amount`; a failed `transfer` changes neither account. -/
theorem transfer_moves_exactly_amount (src rcpt : Account) (amount : Rat) :
    ((src.transfer amount rcpt).2.2 = true →
       (src.transfer amount rcpt).1.balance = src.balance - amount
       ∧ (src.transfer amount rcpt).2.1.balance = rcpt.balance + amount)
    ∧ ((src.transfer amount rcpt).2.2 = false →
       (src.transfer amount rcpt).1 = src
       ∧ (src.transfer amount rcpt).2.1 = rcpt) := by
  cases src with
  | savings aid cid b mw =>
    cases rcpt <;> by_cases h : 0 < mw <;>
      simp [Account.transfer, Account.deposit, Account.balance, h]
  | checking aid cid b cl =>
    cases rcpt <;> by_cases h : b + cl ≥ amount <;>
      simp [Account.transfer, Account.deposit, Account.balance, h]

/-- Witness for C4: a concrete successful transfer and a concrete failed
one. -/
theorem transfer_moves_exactly_amount_witness :
    ((Account.checking "1" "ca" 10 5).transfer 12
        (Account.savings "2" "cb" 3 7)).1.balance = 10 - 12
    ∧ ((Account.checking "1" "ca" 10 5).transfer 12
        (Account.savings "2" "cb" 3 7)).2.1.balance = 3 + 12 := by
  have h := (transfer_moves_exactly_amount (Account.checking "1" "ca" 10 5)
    (Account.savings "2" "cb" 3 7) 12).1
    (by simp only [Account.transfer]; rw [if_pos (by norm_num)])
  simpa [Account.balance] using h

/-- Helper: modifying at a key rewrites exactly that key's value. -/
theorem alookup_amodify_self {α : Type} (l : List (String × α)) (k : String)
    (f : α → α) : alookup (amodify l k f) k = (alookup l k).map f := by
  induction l with
  | nil => rfl
  | cons p ps ih =>
    by_cases h : p.1 = k
    · simp [amodify, alookup, h]
    · simp only [amodify, List.map_cons, if_neg h, alookup]
      exact ih

/-- Helper: modifying at a key leaves every other key's value alone. -/
theorem alookup_amodify_ne {α : Type} (l : List (String × α)) (k k' : String)
    (f : α → α) (h : k' ≠ k) :
    alookup (amodify l k f) k' = alookup l k' := by
  induction l with
  | nil => rfl
  | cons p ps ih =>
    by_cases hp : p.1 = k
    · have hk : ¬ k = k' := Ne.symm h
      simp [amodify, alookup, hp, hk]
      exact ih
    · by_cases hq : p.1 = k'
      · simp [amodify, alookup, hp, hq, h]
      · simp [amodify, alookup, hp, hq]
        exact ih

/-- Helper: appending a fresh entry is invisible to other keys. -/
theorem alookup_append_single_ne {α : Type} (l : List (String × α))
    (k k' : String) (v : α) (h : k' ≠ k) :
    alookup (l ++ [(k, v)]) k' = alookup l k' := by
  induction l with
  | nil => simp [alookup, Ne.symm h]
  | cons p ps ih =>
    by_cases hp : p.1 = k'
    · simp [alookup, hp]
    · simp [alookup, hp]
      exact ih

/-- Helper: appending a fresh entry makes it visible at its own key when
the key was absent. -/
theorem alookup_append_single_self {α : Type} (l : List (String × α))
    (k : String) (v : α) (h : alookup l k = none) :
    alookup (l ++ [(k, v)]) k = some v := by
  induction l with
  | nil => simp [alookup]
  | cons p ps ih =>
    by_cases hp : p.1 = k
    · simp [alookup, hp] at h
    · simp only [alookup, if_neg hp] at h
      simp only [List.cons_append, alookup, if_neg hp]
      exact ih h

/-- Helper: a `setdefault`-append extends exactly the target key's list by
one record. -/
theorem alookup_appendTransaction_self (l : List (String × List Transaction))
    (k : String) (t : Transaction) :
    alookup (appendTransaction l k t) k
      = some (((alookup l k).getD []) ++ [t]) := by
  unfold appendTransaction
  cases hk : alookup l k with
  | none => simp [hk, alookup_append_single_self l k [t] hk]
  | some ts => simp [hk, alookup_amodify_self]

/-- Helper: a `setdefault`-append leaves every other key's list alone. -/
theorem alookup_appendTransaction_ne (l : List (String × List Transaction))
    (k k' : String) (t : Transaction) (h : k' ≠ k) :
    alookup (appendTransaction l k t) k' = alookup l k' := by
  unfold appendTransaction
  cases hk : alookup l k with
  | none => simp [hk, alookup_append_single_ne l k k' [t] h]
  | some ts => simp [hk, alookup_amodify_ne l k k' _ h]

/-- Helper: the dispatcher's deposit branch, on a resolved authorized
account, in closed form. -/
theorem perform_deposit_eq (bs : BankSystem) (account_id : String)
    (amount : Rat) (u : String) (account : Account)
    (hu : bs.current_user = some u)
    (ha : alookup bs.accounts account_id = some account)
    (hauth : bs.authorized u account = some true) :
    bs.perform_operations account_id (.deposit amount)
      = some ({ bs with
                  accounts := amodify bs.accounts account_id
                    (fun _ => (account.deposit amount).1),
                  transactions := appendTransaction bs.transactions account_id
                    (.plain
                      (toString
                        (((alookup bs.transactions account_id).getD []).length + 1))
                      amount "deposit" "COMPLETE") },
              .done true) := by
  simp [BankSystem.perform_operations, hu, ha, hauth, snd_deposit]

/-- Helper: the dispatcher's withdrawal branch, on a resolved authorized
account, in closed form. -/
theorem perform_withdrawal_eq (bs : BankSystem) (account_id : String)
    (amount : Rat) (u : String) (account : Account)
    (hu : bs.current_user = some u)
    (ha : alookup bs.accounts account_id = some account)
    (hauth : bs.authorized u account = some true) :
    bs.perform_operations account_id (.withdrawal amount)
      = some ({ bs with
                  accounts := amodify bs.accounts account_id
                    (fun _ => (account.withdrawal amount).1),
                  transactions := appendTransaction bs.transactions account_id
                    (.plain
                      (toString
                        (((alookup bs.transactions account_id).getD []).length + 1))
                      amount "withdrawal"
                      (if (account.withdrawal amount).2 then "COMPLETE"
                       else "ABORTED")) },
              .done (account.withdrawal amount).2) := by
  simp [BankSystem.perform_operations, hu, ha, hauth]

/-- Helper: the dispatcher's transfer branch, on a resolved authorized
account with a resolved recipient, in closed form up to the accounts
component. -/
theorem perform_transfer_eq (bs : BankSystem) (account_id : String)
    (rid : String) (amount : Rat) (u : String) (account : Account)
    (r : Account)
    (hu : bs.current_user = some u)
    (ha : alookup bs.accounts account_id = some account)
    (hauth : bs.authorized u account = some true)
    (hrid : alookup bs.accounts rid = some r) :
    ∃ accs,
      bs.perform_operations account_id (.transfer rid amount)
        = some ({ bs with
                    accounts := accs,
                    transactions := appendTransaction bs.transactions account_id
                      (.xfer
                        (toString
                          (((alookup bs.transactions account_id).getD []).length + 1))
                        rid amount "transfer"
                        (if account.transferGuard amount then "COMPLETE"
                         else "ABORTED")) },
                .done (account.transferGuard amount)) := by
  by_cases hg : account.transferGuard amount
  · cases account with
    | savings aid0 cid0 b0 mw0 =>
        exact ⟨amodify (amodify (amodify bs.accounts account_id
            (fun a => a.subBalance amount)) rid (fun a => (a.deposit amount).1))
            account_id Account.decMonthly,
          by simp [BankSystem.perform_operations, hu, ha, hauth, hrid, hg]⟩
    | checking aid0 cid0 b0 cl0 =>
        exact ⟨amodify (amodify bs.accounts account_id
            (fun a => a.subBalance amount)) rid (fun a => (a.deposit amount).1),
          by simp [BankSystem.perform_operations, hu, ha, hauth, hrid, hg]⟩
  · refine ⟨bs.accounts, ?_⟩
    simp [BankSystem.perform_operations, hu, ha, hauth, hrid, hg]

/-- C5 (amended): every dispatched deposit or withdrawal on a resolved,
authorized account, and every dispatched transfer whose recipient account
also resolves, appends exactly one transaction record to the target
account's ledger, whether the operation succeeds or fails; the record's
status is COMPLETE exactly when the operation succeeded and is ABORTED
otherwise; no other account's ledger changes.  (A dispatched transfer
whose recipient id does not resolve is rejected before any record is
appended — see the counterexample.) -/
theorem perform_operations_logs_exactly_one
    (bs : BankSystem) (account_id : String) (req : OpRequest) (u : String)
    (account : Account)
    (hu : bs.current_user = some u)
    (ha : alookup bs.accounts account_id = some account)
    (hauth : bs.authorized u account = some true)
    (hrcpt : ∀ rid amount, req = .transfer rid amount →
               (alookup bs.accounts rid).isSome) :
    ∃ bs' ok rec,
      bs.perform_operations account_id req = some (bs', .done ok)
      ∧ alookup bs'.transactions account_id
          = some (((alookup bs.transactions account_id).getD []) ++ [rec])
      ∧ (rec.status = "COMPLETE" ↔ ok = true)
      ∧ (rec.status = "COMPLETE" ∨ rec.status = "ABORTED")
      ∧ (∀ k, k ≠ account_id →
           alookup bs'.transactions k = alookup bs.transactions k) := by
  cases req with
  | deposit amount =>
      refine ⟨_, _,
        .plain (toString (((alookup bs.transactions account_id).getD []).length + 1))
          amount "deposit" "COMPLETE",
        perform_deposit_eq bs account_id amount u account hu ha hauth,
        ?_, ?_, ?_, ?_⟩
      · exact alookup_appendTransaction_self bs.transactions account_id _
      · simp [Transaction.status]
      · simp [Transaction.status]
      · intro k hk
        exact alookup_appendTransaction_ne bs.transactions account_id k _ hk
  | withdrawal amount =>
      refine ⟨_, _,
        .plain (toString (((alookup bs.transactions account_id).getD []).length + 1))
          amount "withdrawal"
          (if (account.withdrawal amount).2 then "COMPLETE" else "ABORTED"),
        perform_withdrawal_eq bs account_id amount u account hu ha hauth,
        ?_, ?_, ?_, ?_⟩
      · exact alookup_appendTransaction_self bs.transactions account_id _
      · cases hok : (account.withdrawal amount).2 <;>
          simp [Transaction.status, hok]
      · cases hok : (account.withdrawal amount).2 <;>
          simp [Transaction.status, hok]
      · intro k hk
        exact alookup_appendTransaction_ne bs.transactions account_id k _ hk
  | transfer rid amount =>
      obtain ⟨r, hr⟩ := Option.isSome_iff_exists.mp (hrcpt rid amount rfl)
      obtain ⟨accs, heq⟩ := perform_transfer_eq bs account_id rid amount u
        account r hu ha hauth hr
      refine ⟨_, _,
        .xfer (toString (((alookup bs.transactions account_id).getD []).length + 1))
          rid amount "transfer"
          (if account.transferGuard amount then "COMPLETE" else "ABORTED"),
        heq, ?_, ?_, ?_, ?_⟩
      · exact alookup_appendTransaction_self bs.transactions account_id _
      · cases hok : account.transferGuard amount <;>
          simp [Transaction.status, hok]
      · cases hok : account.transferGuard amount <;>
          simp [Transaction.status, hok]
      · intro k hk
        exact alookup_appendTransaction_ne bs.transactions account_id k _ hk

/-- Witness for C5 at a concrete dispatched deposit. -/
theorem perform_operations_logs_exactly_one_witness :
    ∃ bs' ok rec,
      cxBank.perform_operations "1" (.deposit 5) = some (bs', .done ok)
      ∧ alookup bs'.transactions "1"
          = some (((alookup cxBank.transactions "1").getD []) ++ [rec])
      ∧ (rec.status = "COMPLETE" ↔ ok = true)
      ∧ (rec.status = "COMPLETE" ∨ rec.status = "ABORTED")
      ∧ (∀ k, k ≠ "1" →
           alookup bs'.transactions k = alookup cxBank.transactions k) :=
  perform_operations_logs_exactly_one cxBank "1" (.deposit 5) "admin"
    cxAccount rfl rfl rfl (fun _ _ h => nomatch h)

/-- C5 counterexample: on a logged-in admin session, with the target
account resolved and authorized, a dispatched transfer naming a missing
recipient id returns early and appends no record at all — refuting
"exactly one transaction record is appended ... whether the operation
succeeds or fails" as stated. -/
theorem transfer_missing_recipient_logs_nothing :
    cxBank.current_user = some "admin"
    ∧ alookup cxBank.accounts "1" = some cxAccount
    ∧ cxBank.authorized "admin" cxAccount = some true
    ∧ cxBank.perform_operations "1" (.transfer "2" 5)
        = some (cxBank, .recipientNotFound)
    ∧ alookup cxBank.transactions "1" = none := by
  refine ⟨rfl, rfl, rfl, rfl, rfl⟩

/-- C7 (amended): with no user logged in, `view_transactions`,
`perform_operations` and `check_balance` each fail with the please-login
notice and leave the store unchanged (`perform_operations` returns the
store as it was; the other two never write to it); `delete_account`,
however, performs no session check at all: logged out or not, it deletes
a resolved account together with its transactions and reports not-found
otherwise. -/
theorem logged_out_entry_points (bs : BankSystem) (account_id : String)
    (req : OpRequest) (h : bs.current_user = none) :
    bs.perform_operations account_id req = some (bs, .notLoggedIn)
    ∧ bs.view_transactions account_id = some .notLoggedIn
    ∧ bs.check_balance account_id = some .notLoggedIn
    ∧ ((alookup bs.accounts account_id).isSome →
        bs.delete_account account_id
          = ({ bs with accounts := aerase bs.accounts account_id,
                       transactions := aerase bs.transactions account_id },
             true))
    ∧ ((alookup bs.accounts account_id).isNone →
        bs.delete_account account_id = (bs, false)) := by
  refine ⟨?_, ?_, ?_, ?_, ?_⟩
  · simp [BankSystem.perform_operations, h]
  · simp [BankSystem.view_transactions, h]
  · simp [BankSystem.check_balance, h]
  · intro hs
    simp [BankSystem.delete_account, hs]
  · intro hs
    simp [BankSystem.delete_account, Option.isNone_iff_eq_none.mp hs]

/-- Witness for C7 on a concrete logged-out store. -/
theorem logged_out_entry_points_witness :
    cxBankLoggedOut.perform_operations "1" (.withdrawal 5)
      = some (cxBankLoggedOut, .notLoggedIn)
    ∧ cxBankLoggedOut.view_transactions "1" = some .notLoggedIn
    ∧ cxBankLoggedOut.check_balance "1" = some .notLoggedIn := by
  have h := logged_out_entry_points cxBankLoggedOut "1" (.withdrawal 5) rfl
  exact ⟨h.1, h.2.1, h.2.2.1⟩

/-- C7 counterexample: with no user logged in, `delete_account` does not
fail with an unauthenticated error — it deletes the account and its
transaction history, changing the store. -/
theorem delete_account_while_logged_out :
    cxBankLoggedOut.current_user = none
    ∧ (cxBankLoggedOut.delete_account "1").2 = true
    ∧ (cxBankLoggedOut.delete_account "1").1.accounts = []
    ∧ (cxBankLoggedOut.delete_account "1").1.transactions = []
    ∧ cxBankLoggedOut.accounts ≠ [] := by
  refine ⟨rfl, rfl, rfl, rfl, ?_⟩
  simp [cxBankLoggedOut]

/-- C8: with the customer scan resolving to `c`, creating a Savings
account is rejected with AgeRestriction exactly when `c.age < 14` and a
Checking account exactly when `c.age < 18`; at ages at or above the bound
(in particular at the boundary ages 14 and 18 themselves) the account is
added under the next sequential id; and every non-created outcome, for
any account type string, leaves the store — accounts map included —
unchanged. -/
theorem create_account_age_gate (bs : BankSystem) (customer_id : String)
    (c : Customer)
    (hc : findCustomerById bs.customers customer_id = some c) :
    ((bs.create_account customer_id "Savings").2 = .ageRestriction ↔ c.age < 14)
    ∧ ((bs.create_account customer_id "Checking").2 = .ageRestriction ↔ c.age < 18)
    ∧ (14 ≤ c.age →
        bs.create_account customer_id "Savings"
          = ({ bs with
                 accounts := ainsert bs.accounts
                   (toString (bs.accounts.length + 1))
                   (.savings (toString (bs.accounts.length + 1))
                     customer_id 0 1) },
             .created (toString (bs.accounts.length + 1))))
    ∧ (18 ≤ c.age →
        bs.create_account customer_id "Checking"
          = ({ bs with
                 accounts := ainsert bs.accounts
                   (toString (bs.accounts.length + 1))
                   (.checking (toString (bs.accounts.length + 1))
                     customer_id 0 0) },
             .created (toString (bs.accounts.length + 1))))
    ∧ (∀ account_type,
        (∀ aid, (bs.create_account customer_id account_type).2 ≠ .created aid) →
        (bs.create_account customer_id account_type).1 = bs) := by
  refine ⟨?_, ?_, ?_, ?_, ?_⟩
  · by_cases hage : c.age < 14 <;>
      simp [BankSystem.create_account, hc, hage]
  · by_cases hage : c.age < 18 <;>
      simp [BankSystem.create_account, hc, hage]
  · intro hage
    simp [BankSystem.create_account, hc, not_lt.mpr hage]
  · intro hage
    simp [BankSystem.create_account, hc, not_lt.mpr hage]
  · intro account_type hnot
    by_cases hS : account_type = "Savings"
    · subst hS
      by_cases hage : c.age < 14
      · simp [BankSystem.create_account, hc, hage]
      · exact ((hnot (toString (bs.accounts.length + 1)))
          (by simp [BankSystem.create_account, hc, hage])).elim
    · by_cases hC : account_type = "Checking"
      · subst hC
        by_cases hage : c.age < 18
        · simp [BankSystem.create_account, hc, hage]
        · exact ((hnot (toString (bs.accounts.length + 1)))
            (by simp [BankSystem.create_account, hc, hage])).elim
      · simp [BankSystem.create_account, hc, hS, hC]

/-- Witness for C8 at the boundary ages 14 and 18 and below a boundary. -/
theorem create_account_age_gate_witness :
    ((14 : Int) ≤ cxCustomer14.age)
    ∧ ((18 : Int) ≤ cxCustomer18.age)
    ∧ (cxCustomer13.age < 14)
    ∧ (cxBankAges.create_account "c14" "Savings").2
        = .created (toString (cxBankAges.accounts.length + 1))
    ∧ (cxBankAges.create_account "c18" "Checking").2
        = .created (toString (cxBankAges.accounts.length + 1))
    ∧ (cxBankAges.create_account "c13" "Savings").2 = .ageRestriction := by
  have h14 := (create_account_age_gate cxBankAges "c14" cxCustomer14 rfl).2.2.1
    (by decide)
  have h18 := (create_account_age_gate cxBankAges "c18" cxCustomer18 rfl).2.2.2.1
    (by decide)
  have h13 := (create_account_age_gate cxBankAges "c13" cxCustomer13 rfl).1
  refine ⟨by decide, by decide, by decide, ?_, ?_, ?_⟩
  · rw [h14]
  · rw [h18]
  · exact h13.mpr (by decide)

/-- Helper: membership in an `amodify` result comes from an original
entry, either untouched or rewritten. -/
theorem mem_amodify {α : Type} (l : List (String × α)) (k : String)
    (f : α → α) (p : String × α) (hp : p ∈ amodify l k f) :
    ∃ q ∈ l, p = q ∨ p = (q.1, f q.2) := by
  rcases List.mem_map.mp hp with ⟨q, hq, hg⟩
  refine ⟨q, hq, ?_⟩
  by_cases hk : q.1 = k
  · right
    rw [← hg]
    simp [hk]
  · left
    rw [← hg]
    simp [hk]

/-- Helper: a `setdefault`-append preserves absence of ABORTED deposit
records whenever the appended record is not one. -/
theorem noAbortedDeposit_appendTransaction
    (l : List (String × List Transaction)) (k : String) (t : Transaction)
    (h0 : ∀ p ∈ l, ∀ t' ∈ p.2,
            ¬ (t'.transaction_type = "deposit" ∧ t'.status = "ABORTED"))
    (ht : ¬ (t.transaction_type = "deposit" ∧ t.status = "ABORTED")) :
    ∀ p ∈ appendTransaction l k t, ∀ t' ∈ p.2,
      ¬ (t'.transaction_type = "deposit" ∧ t'.status = "ABORTED") := by
  intro p hp t' ht'
  unfold appendTransaction at hp
  by_cases hs : (alookup l k).isSome
  · rw [if_pos hs] at hp
    obtain ⟨q, hq, hpq⟩ := mem_amodify l k _ p hp
    rcases hpq with rfl | rfl
    · exact h0 p hq t' ht'
    · rcases List.mem_append.mp ht' with h1 | h1
      · exact h0 q hq t' h1
      · rcases List.mem_singleton.mp h1 with rfl
        exact ht
  · rw [if_neg hs] at hp
    rcases List.mem_append.mp hp with h1 | h1
    · exact h0 p h1 t' ht'
    · rcases List.mem_singleton.mp h1 with rfl
      rcases List.mem_singleton.mp ht' with rfl
      exact ht

/-- Helper: one `perform_operations` call preserves the absence of
ABORTED deposit records in the ledger. -/
theorem perform_operations_preserves_noAbortedDeposit
    (bs : BankSystem) (account_id : String) (req : OpRequest)
    (res : BankSystem × OpOutcome)
    (h : bs.perform_operations account_id req = some res)
    (h0 : noAbortedDeposit bs) : noAbortedDeposit res.1 := by
  unfold BankSystem.perform_operations at h
  split at h
  · cases Option.some.inj h
    exact h0
  · split at h
    · cases Option.some.inj h
      exact h0
    · split at h
      · exact absurd h (by simp)
      · cases Option.some.inj h
        exact h0
      · split at h
        · cases Option.some.inj h
          refine noAbortedDeposit_appendTransaction _ _ _ h0 ?_
          simp [Transaction.transaction_type, Transaction.status, snd_deposit]
        · cases Option.some.inj h
          refine noAbortedDeposit_appendTransaction _ _ _ h0 ?_
          simp [Transaction.transaction_type]
        · split at h
          · cases Option.some.inj h
            exact h0
          · split at h
            · cases Option.some.inj h
              refine noAbortedDeposit_appendTransaction _ _ _ h0 ?_
              simp [Transaction.transaction_type]
            · cases Option.some.inj h
              refine noAbortedDeposit_appendTransaction _ _ _ h0 ?_
              simp [Transaction.transaction_type]

/-- C10: `Account.deposit` returns True unconditionally, so the
dispatcher's ABORTED branch for deposits is unreachable: starting from
any store whose ledger holds no deposit record tagged ABORTED, no
sequence of dispatched operations can ever produce one. -/
theorem no_aborted_deposit_from_dispatch (ops : List (String × OpRequest)) :
    ∀ bs bs' : BankSystem, noAbortedDeposit bs →
      bs.runOps ops = some bs' → noAbortedDeposit bs' := by
  induction ops with
  | nil =>
      intro bs bs' h0 hrun
      unfold BankSystem.runOps at hrun
      cases Option.some.inj hrun
      exact h0
  | cons op rest ih =>
      intro bs bs' h0 hrun
      obtain ⟨aid, req⟩ := op
      unfold BankSystem.runOps at hrun
      cases heq : bs.perform_operations aid req with
      | none =>
          rw [heq] at hrun
          cases hrun
      | some res =>
          obtain ⟨bs1, o⟩ := res
          rw [heq] at hrun
          exact ih bs1 bs'
            (perform_operations_preserves_noAbortedDeposit bs aid req (bs1, o)
              heq h0)
            hrun

/-- Witness for C10: a concrete failing transfer (the only failure the
dispatcher can log besides a failed withdrawal) leaves the ledger free of
ABORTED deposits. -/
theorem no_aborted_deposit_from_dispatch_witness :
    noAbortedDeposit cxBankNoQuota
    ∧ ∃ bs', cxBankNoQuota.runOps [("1", .transfer "1" 5)] = some bs'
        ∧ noAbortedDeposit bs' := by
  constructor
  · intro p hp
    exact absurd hp (by simp [cxBankNoQuota])
  · refine ⟨_, rfl, ?_⟩
    exact no_aborted_deposit_from_dispatch [("1", .transfer "1" 5)]
      cxBankNoQuota _ (fun p hp => absurd hp (by simp [cxBankNoQuota])) rfl

/-- C9: the field count of an accounts-file line — not its type label —
selects the variant instantiated on load: a 4-field line always yields a
CheckingAccount and a 5-field line always yields a SavingsAccount,
whatever the label field holds. -/
theorem load_account_line_dispatches_on_count
    (account_id customer_id : String) (label : FileField) (b : Rat)
    (mw : Int) :
    loadAccountLine [.str account_id, .str customer_id, label, .num b]
      = some (some (account_id, Account.checking account_id customer_id b 0))
    ∧ loadAccountLine [.str account_id, .str customer_id, label, .num b,
        .int mw]
      = some (some (account_id, Account.savings account_id customer_id b mw)) :=
  ⟨rfl, rfl⟩

/-- Helper: one saved customers line reloads to the same customer keyed by
its login. -/
theorem loadCustomerLine_save (c : Customer) :
    loadCustomerLine (saveCustomerLine c) = some (c.login, c) := rfl

/-- Helper: one saved accounts line reloads to the same account when the
account survives the codec (savings always; checking with credit limit
0). -/
theorem loadAccountLine_save (a : Account) (h : a.persistable = true) :
    loadAccountLine (saveAccountLine a) = some (some (a.account_id, a)) := by
  cases a with
  | savings aid cid b mw => rfl
  | checking aid cid b cl =>
      have hcl : cl = 0 := by simpa [Account.persistable] using h
      subst hcl
      rfl

/-- Helper: one saved transactions line reloads to the same record under
the same account id. -/
theorem loadTransactionLine_save (k : String) (t : Transaction) :
    loadTransactionLine (saveTransactionLine k t) = some (some (k, t)) := by
  cases t <;> rfl

/-- Helper: a modify at an absent key is the identity. -/
theorem amodify_absent {α : Type} (l : List (String × α)) (k : String)
    (f : α → α) (h : alookup l k = none) : amodify l k f = l := by
  induction l with
  | nil => rfl
  | cons p ps ih =>
      by_cases hp : p.1 = k
      · simp [alookup, hp] at h
      · simp only [alookup, if_neg hp] at h
        show (if p.1 = k then (p.1, f p.2) else p) :: amodify ps k f = p :: ps
        rw [if_neg hp, ih h]

/-- Helper: dict assignment at a fresh key appends the entry. -/
theorem ainsert_fresh {α : Type} (l : List (String × α)) (k : String) (v : α)
    (h : alookup l k = none) : ainsert l k v = l ++ [(k, v)] := by
  simp [ainsert, h]

/-- Helper: the customers loop inverts the saved customers file. -/
theorem loadCustomers_save (cs : List (String × Customer)) :
    ∀ acc, (∀ p ∈ cs, p.2.login = p.1) →
      (∀ p ∈ cs, alookup acc p.1 = none) →
      (cs.map Prod.fst).Nodup →
      loadCustomers acc (cs.map (fun p => saveCustomerLine p.2))
        = some (acc ++ cs) := by
  induction cs with
  | nil =>
      intro acc _ _ _
      simp [loadCustomers]
  | cons p ps ih =>
      intro acc hkeys hfresh hnodup
      have hk := hkeys p (List.mem_cons_self p ps)
      have hf := hfresh p (List.mem_cons_self p ps)
      rw [List.map_cons] at hnodup
      obtain ⟨hnm, hnd⟩ := List.nodup_cons.mp hnodup
      simp only [List.map_cons, loadCustomers, loadCustomerLine_save, hk,
        ainsert_fresh acc p.1 p.2 hf, Prod.mk.eta]
      rw [ih (acc ++ [p])
        (fun q hq => hkeys q (List.mem_cons_of_mem p hq))
        (fun q hq => by
          rw [alookup_append_single_ne acc p.1 q.1 p.2
            (fun heq => hnm (heq ▸ List.mem_map_of_mem Prod.fst hq))]
          exact hfresh q (List.mem_cons_of_mem p hq))
        hnd]
      simp

/-- Helper: the accounts loop inverts the saved accounts file on codec
surviving accounts. -/
theorem loadAccounts_save (accs : List (String × Account)) :
    ∀ acc, (∀ p ∈ accs, p.2.account_id = p.1) →
      (∀ p ∈ accs, p.2.persistable = true) →
      (∀ p ∈ accs, alookup acc p.1 = none) →
      (accs.map Prod.fst).Nodup →
      loadAccounts acc (accs.map (fun p => saveAccountLine p.2))
        = some (acc ++ accs) := by
  induction accs with
  | nil =>
      intro acc _ _ _ _
      simp [loadAccounts]
  | cons p ps ih =>
      intro acc hkeys hpers hfresh hnodup
      have hk := hkeys p (List.mem_cons_self p ps)
      have hf := hfresh p (List.mem_cons_self p ps)
      rw [List.map_cons] at hnodup
      obtain ⟨hnm, hnd⟩ := List.nodup_cons.mp hnodup
      simp only [List.map_cons, loadAccounts,
        loadAccountLine_save p.2 (hpers p (List.mem_cons_self p ps)), hk,
        ainsert_fresh acc p.1 p.2 hf, Prod.mk.eta]
      rw [ih (acc ++ [p])
        (fun q hq => hkeys q (List.mem_cons_of_mem p hq))
        (fun q hq => hpers q (List.mem_cons_of_mem p hq))
        (fun q hq => by
          rw [alookup_append_single_ne acc p.1 q.1 p.2
            (fun heq => hnm (heq ▸ List.mem_map_of_mem Prod.fst hq))]
          exact hfresh q (List.mem_cons_of_mem p hq))
        hnd]
      simp

/-- Helper: the transactions loop consumes one account's block of lines
as a block of `setdefault`-appends. -/
theorem loadTransactions_block (k : String) (ts0 : List Transaction) :
    ∀ acc rest,
      loadTransactions acc (ts0.map (saveTransactionLine k) ++ rest)
        = loadTransactions (appendMany acc k ts0) rest := by
  induction ts0 with
  | nil =>
      intro acc rest
      simp [appendMany]
  | cons t ts ih =>
      intro acc rest
      simp only [List.map_cons, List.cons_append, loadTransactions,
        loadTransactionLine_save, List.append_eq]
      rw [ih]
      simp [appendMany]

/-- Helper: a block of appends at a key extends that key's entry at its
place. -/
theorem appendMany_extend (acc : List (String × List Transaction))
    (k : String) (ts : List Transaction)
    (h : alookup acc k = none) :
    ∀ l0, appendMany (acc ++ [(k, l0)]) k ts = acc ++ [(k, l0 ++ ts)] := by
  induction ts with
  | nil =>
      intro l0
      simp [appendMany]
  | cons t ts ih =>
      intro l0
      have hsome : alookup (acc ++ [(k, l0)]) k = some l0 :=
        alookup_append_single_self acc k l0 h
      have h1 : appendTransaction (acc ++ [(k, l0)]) k t
          = acc ++ [(k, l0 ++ [t])] := by
        unfold appendTransaction
        rw [hsome]
        simp only [Option.isSome_some, if_pos]
        show amodify (acc ++ [(k, l0)]) k (fun ts => ts ++ [t])
              = acc ++ [(k, l0 ++ [t])]
        rw [show amodify (acc ++ [(k, l0)]) k (fun ts => ts ++ [t])
              = amodify acc k (fun ts => ts ++ [t])
                ++ amodify [(k, l0)] k (fun ts => ts ++ [t]) from
            List.map_append _ _ _]
        rw [amodify_absent acc k _ h]
        simp [amodify]
      simp only [appendMany, List.foldl_cons]
      rw [h1]
      have h2 := ih (l0 ++ [t])
      simp only [appendMany] at h2
      rw [h2]
      simp

/-- Helper: a block of appends at a fresh key creates exactly that entry
at the end. -/
theorem appendMany_fresh (acc : List (String × List Transaction))
    (k : String) (ts0 : List Transaction)
    (h : alookup acc k = none) (hne : ts0 ≠ []) :
    appendMany acc k ts0 = acc ++ [(k, ts0)] := by
  cases ts0 with
  | nil => exact absurd rfl hne
  | cons t ts =>
      simp only [appendMany, List.foldl_cons]
      have h1 : appendTransaction acc k t = acc ++ [(k, [t])] := by
        unfold appendTransaction
        simp [h]
      rw [h1]
      have h2 := appendMany_extend acc k ts h [t]
      simp only [appendMany] at h2
      rw [h2]
      simp

/-- Helper: the transactions loop inverts the saved transactions file. -/
theorem loadTransactions_save (ts : List (String × List Transaction)) :
    ∀ acc, (∀ p ∈ ts, alookup acc p.1 = none) →
      (ts.map Prod.fst).Nodup →
      (∀ p ∈ ts, p.2 ≠ []) →
      loadTransactions acc
          ((ts.map (fun p => p.2.map (saveTransactionLine p.1))).flatten)
        = some (acc ++ ts) := by
  induction ts with
  | nil =>
      intro acc _ _ _
      simp [loadTransactions]
  | cons p ps ih =>
      intro acc hfresh hnodup hne
      have hf := hfresh p (List.mem_cons_self p ps)
      have hne0 := hne p (List.mem_cons_self p ps)
      rw [List.map_cons] at hnodup
      obtain ⟨hnm, hnd⟩ := List.nodup_cons.mp hnodup
      rw [List.map_cons, List.flatten_cons, loadTransactions_block,
        appendMany_fresh acc p.1 p.2 hf hne0, Prod.mk.eta]
      rw [ih (acc ++ [p])
        (fun q hq => by
          rw [alookup_append_single_ne acc p.1 q.1 p.2
            (fun heq => hnm (heq ▸ List.mem_map_of_mem Prod.fst hq))]
          exact hfresh q (List.mem_cons_of_mem p hq))
        hnd
        (fun q hq => hne q (List.mem_cons_of_mem p hq))]
      simp

/-- C6 (amended): `save_data` followed by `load_data` into a fresh store
reproduces the customers, the accounts with their variants and
monthly_withdrawals, and the per-account transaction lists in order — for
every store whose dict keys agree with the stored logins and account ids
(with no duplicated keys), whose transactions entries are nonempty, and
whose checking accounts all carry credit limit 0.  The credit-limit
proviso is forced by the code: the 4-field checking line never stores the
credit limit, and loading rebuilds it as the constructor default 0 (see
the counterexample); the program itself never creates a nonzero credit
limit, so every reachable store satisfies the proviso. -/
theorem save_load_roundtrip (bs : BankSystem)
    (hcust : ∀ p ∈ bs.customers, p.2.login = p.1)
    (hcustnd : (bs.customers.map Prod.fst).Nodup)
    (hacc : ∀ p ∈ bs.accounts, p.2.account_id = p.1)
    (hpers : ∀ p ∈ bs.accounts, p.2.persistable = true)
    (haccnd : (bs.accounts.map Prod.fst).Nodup)
    (htxnd : (bs.transactions.map Prod.fst).Nodup)
    (htxne : ∀ p ∈ bs.transactions, p.2 ≠ []) :
    BankSystem.init.load_data bs.save_data
      = some { BankSystem.init with
                 customers := bs.customers,
                 accounts := bs.accounts,
                 transactions := bs.transactions } := by
  have h1 := loadCustomers_save bs.customers [] hcust (fun q _ => rfl) hcustnd
  have h2 := loadAccounts_save bs.accounts [] hacc hpers (fun q _ => rfl)
    haccnd
  have h3 := loadTransactions_save bs.transactions [] (fun q _ => rfl) htxnd
    htxne
  simp only [List.nil_append] at h1 h2 h3
  simp [BankSystem.load_data, BankSystem.save_data, BankSystem.init, h1, h2,
    h3]

/-- Witness for C6 on a concrete store populating all three dicts with
both account variants and both transaction shapes. -/
theorem save_load_roundtrip_witness :
    BankSystem.init.load_data cxBankFull.save_data
      = some { BankSystem.init with
                 customers := cxBankFull.customers,
                 accounts := cxBankFull.accounts,
                 transactions := cxBankFull.transactions } :=
  save_load_roundtrip cxBankFull (by decide) (by decide) (by decide)
    (by decide) (by decide) (by decide) (by decide)

/-- C6 counterexample: the 4-field checking line drops the credit limit,
so a store holding a checking account with credit limit 5 does not
round-trip: reloading its own saved files yields credit limit 0, a
different account set. -/
theorem roundtrip_drops_credit_limit :
    BankSystem.init.load_data cxBankCredit.save_data
      = some { BankSystem.init with
                 accounts := [("1", Account.checking "1" "c1" 0 0)] }
    ∧ cxBankCredit.accounts = [("1", Account.checking "1" "c1" 0 5)]
    ∧ (BankSystem.init.load_data cxBankCredit.save_data).map
        BankSystem.accounts ≠ some cxBankCredit.accounts := by
  refine ⟨rfl, rfl, ?_⟩
  decide

end SimpleBank
